import Mathlib

/-!
Verification of the SRP (Secure Remote Password) core of `src/core/srp.js`
(`sjcl.keyexchange.srp`): the protocol derivation functions
(`makeVerifier`, `_pad`, `_makeK`, `_makeX`, `_makeU`, `makeA`,
`makeClientKey`, `makeM1`, `makeM2`) and the known-group registry
(`knownGroup`, `_initKnownGroups`, `_knownGroups`).

Bit strings (sjcl `bitArray` values) are modelled as `List Bool` in
transmission order (most significant bit first).  The external
collaborators — the `sjcl.bn` arbitrary-precision integer, the `sjcl.hash`
digest function and the `sjcl.bitArray` primitives — are not part of the
SRP source file; they are modelled from the specification's interface for
them (§6 of the spec), as noted on each such definition.
-/

namespace SRP

/-- A bit string: sjcl `bitArray` values modelled at the bit level,
most significant bit first. -/
abbrev Bits := List Bool

/-- Modelled from the spec: the external BitString collaborator's
`bitSlice(bits, start, end)` — the bits of positions `[start, end)`;
a zero or negative length yields the empty string. -/
def bitSlice (a : Bits) (bstart bend : Nat) : Bits :=
  (a.take bend).drop bstart

/-- Modelled from the spec: the external BigInteger collaborator's
`fromBits(bits)` — the big-endian value of a bit string. -/
def fromBits (b : Bits) : Nat :=
  b.foldl (fun acc bit => 2 * acc + bit.toNat) 0

/-- Fuel-indexed helper for `toBits` (structural recursion on the fuel so
that the definition evaluates inside the kernel). -/
def toBitsAux : Nat → Nat → Bits
  | 0, _ => []
  | fuel + 1, n => if n = 0 then [] else toBitsAux fuel (n / 2) ++ [n % 2 == 1]
-- a fuel of `n` always suffices, since the bit count of `n` is at most `n`

/-- Modelled from the spec: the external BigInteger collaborator's
`toBits()` — the big-endian bit string of a value. -/
def toBits (n : Nat) : Bits := toBitsAux n n

/-- Modelled from the spec: the external BigInteger collaborator's
`powermod(exponent, modulus)`. -/
def powermod (b e N : Nat) : Nat := b ^ e % N

/-- Modelled from the spec: the external BigInteger collaborator's
`mulmod(other, modulus)`. -/
def mulmod (a b N : Nat) : Nat := a * b % N

/-- Modelled from the spec: the external BigInteger collaborator's
`sub` followed by `mod(modulus)` — a true modular reduction of a possibly
negative difference, normalized into `[0, modulus)`. -/
def subMod (a b : Nat) (N : Nat) : Nat :=
  (((a : Int) - (b : Int)) % (N : Int)).toNat

/-- Modelled from the spec: the external Hash collaborator (a fixed-length
digest over bit strings) together with the natural character encoding used
when a JavaScript string is hashed directly. -/
structure HashFn where
  hash : Bits → Bits
  enc : String → Bits

/-- An SRP group as returned by the registry: safe prime modulus `N` and
generator `g`, in materialized (BigInteger) form. -/
structure Group where
  N : Nat
  g : Nat

/-- `_makeX(I, P, s)`: `x = SHA1(s | SHA1(I | ":" | P))`.  The inner hash
is applied to the string `I + ':' + P` (hashed in its natural character
encoding); the salt `s` is concatenated as raw bits. -/
def _makeX (E : HashFn) (I P : String) (s : Bits) : Bits :=
  let inner := E.hash (E.enc (I ++ ":" ++ P))
  E.hash (s ++ inner)

/-- `_pad(p, N)`: a zeroed buffer of `N`'s word count (32-bit words) is
sliced down to `bitLength(N) - bitLength(p)` zero bits (empty when the
difference is not positive) and prepended to `p`. -/
def _pad (p N : Bits) : Bits :=
  let pad : Bits := List.replicate (32 * ((N.length + 31) / 32)) false
  let pad := bitSlice pad 0 (N.length - p.length)
  pad ++ p

/-- `_makeK(group)`: `k = SHA1(N | pad(g, N))` over the bit strings of the
group's `N` and `g`. -/
def _makeK (E : HashFn) (group : Group) : Bits :=
  let N := toBits group.N
  let g := toBits group.g
  E.hash (N ++ _pad g N)

/-- `_makeU(A, B, group)`: `u = SHA1(pad(A, N) | pad(B, N))`. -/
def _makeU (E : HashFn) (A B : Bits) (group : Group) : Bits :=
  let N := toBits group.N
  E.hash (_pad A N ++ _pad B N)

/-- `makeVerifier(I, P, s, group)`: `v = g^x mod N` with
`x = fromBits(_makeX(I, P, s))`, returned as a bit string.
The group record is threaded explicitly and returned, making it visible
that the function never writes to it. -/
def makeVerifierSt (E : HashFn) (I P : String) (s : Bits) (group : Group) :
    Bits × Group :=
  let x := _makeX E I P s
  let x := fromBits x
  (toBits (powermod group.g x group.N), group)

/-- `makeVerifier`'s result. -/
def makeVerifier (E : HashFn) (I P : String) (s : Bits) (group : Group) :
    Bits :=
  (makeVerifierSt E I P s group).1

/-- `makeA(a, group)`: `A = g^a mod N`, with the caller-supplied random
`a` converted from bits.  The group record is threaded explicitly. -/
def makeASt (a : Bits) (group : Group) : Bits × Group :=
  let a := fromBits a
  (toBits (powermod group.g a group.N), group)

/-- `makeA`'s result. -/
def makeA (a : Bits) (group : Group) : Bits :=
  (makeASt a group).1

/-- `makeClientKey(I, P, s, a, A, B, group)`:
`K = (B - k*(g^x mod N))^(a + u*x) mod N`, computed exactly in the
source's statement order: `key = g.powermod(x, N)`, then
`key = key.mulmod(k, N)`, then `key = B.sub(key).mod(N)`, then
`power = u.mul(x)`, `power = a.add(power)`, and finally
`key.powermod(power, N)`.  The group record is threaded explicitly. -/
def makeClientKeySt (E : HashFn) (I P : String) (s a A B : Bits)
    (group : Group) : Bits × Group :=
  let x := fromBits (_makeX E I P s)
  let k := fromBits (_makeK E group)
  let u := fromBits (_makeU E A B group)
  let key := powermod group.g x group.N
  let key := mulmod key k group.N
  let key := subMod (fromBits B) key group.N
  let power := u * x
  let power := fromBits a + power
  (toBits (powermod key power group.N), group)

/-- `makeClientKey`'s result. -/
def makeClientKey (E : HashFn) (I P : String) (s a A B : Bits)
    (group : Group) : Bits :=
  (makeClientKeySt E I P s a A B group).1

/-- `makeM1(I, s, A, B, K, group)`:
`M1 = SHA1((SHA1(N) XOR SHA1(g)) | SHA1(I) | s | A | B | K)`.  The
source XORs the digest of `g`'s bits into the digest of `N`'s bits in
place, position by position; on the equal-length digests of a fixed-width
hash this is the pointwise XOR, modelled by `List.zipWith`.  Only the
freshly computed digest `hN` is overwritten; the group record is threaded
explicitly and returned untouched. -/
def makeM1St (E : HashFn) (I : String) (s A B K : Bits) (group : Group) :
    Bits × Group :=
  let hN := E.hash (toBits group.N)
  let hg := E.hash (toBits group.g)
  let hN := List.zipWith xor hN hg
  let out := hN ++ E.hash (E.enc I)
  let out := out ++ s
  let out := out ++ A
  let out := out ++ B
  let out := out ++ K
  (E.hash out, group)

/-- `makeM1`'s result. -/
def makeM1 (E : HashFn) (I : String) (s A B K : Bits) (group : Group) :
    Bits :=
  (makeM1St E I s A B K group).1

/-- `makeM2(A, M1, K)`: `M2 = SHA1(A | M1 | K)`. -/
def makeM2 (E : HashFn) (A M1 K : Bits) : Bits :=
  let out := A ++ M1
  let out := out ++ K
  E.hash out

/-- A catalog field: either still in its literal form from the source
(`rawHex` for the modulus hex strings, `rawInt` for the small generator
literals) or materialized into BigInteger form by `_initKnownGroups`. -/
inductive GVal where
  | rawHex (h : String)
  | rawInt (n : Nat)
  | big (n : Nat)
deriving DecidableEq

/-- One `_knownGroups` catalog entry: the `N` and `g` fields. -/
structure Entry where
  N : GVal
  g : GVal
deriving DecidableEq

/-- The registry's mutable state: the `_didInitKnownGroups` flag and the
`_knownGroups` table, keyed (as JavaScript object properties are) by the
decimal string of the bit size. -/
structure RegState where
  flagDidInit : Bool
  groups : List (String × Entry)
deriving DecidableEq

/-- Modelled from the spec: the hex-digit value used when a BigInteger is
constructed from a hex string literal. -/
def hexVal (c : Char) : Nat :=
  if '0' ≤ c ∧ c ≤ '9' then c.toNat - 48
  else if 'A' ≤ c ∧ c ≤ 'F' then c.toNat - 55
  else if 'a' ≤ c ∧ c ≤ 'f' then c.toNat - 87
  else 0

/-- Modelled from the spec: `new sjcl.bn(hexString)` — materializing a
hex string literal into BigInteger form. -/
def parseHex (s : String) : Nat :=
  s.data.foldl (fun acc c => 16 * acc + hexVal c) 0

/-- `new sjcl.bn(v)` applied to a catalog field: a hex string parses as
hex, a small integer literal converts directly, and an already
materialized value is copied. -/
def bnOfGVal : GVal → GVal
  | .rawHex h => .big (parseHex h)
  | .rawInt n => .big n
  | .big n => .big n

/-- `_knownGroupSizes` from the source. -/
def _knownGroupSizes : List Nat := [1024, 1536, 2048, 3072, 4096, 6144, 8192]

/-- The 1024-bit catalog entry (`_knownGroups[1024]`). -/
def entry1024 : Entry :=
  ⟨.rawHex ("EEAF0AB9ADB38DD69C33F80AFA8FC5E86072618775FF3C0B9EA2314C" ++
            "9C256576D674DF7496EA81D3383B4813D692C6E0E0D5D8E250B98BE4" ++
            "8E495C1D6089DAD15DC7D7B46154D6B6CE8EF4AD69B15D4982559B29" ++
            "7BCF1885C529F566660E57EC68EDBC3C05726CC02FD4CBF4976EAA9A" ++
            "FD5138FE8376435B9FC61D2FC0EB06E3"),
   .rawInt 2⟩

/-- The 1536-bit catalog entry (`_knownGroups[1536]`). -/
def entry1536 : Entry :=
  ⟨.rawHex ("9DEF3CAFB939277AB1F12A8617A47BBBDBA51DF499AC4C80BEEEA961" ++
            "4B19CC4D5F4F5F556E27CBDE51C6A94BE4607A291558903BA0D0F843" ++
            "80B655BB9A22E8DCDF028A7CEC67F0D08134B1C8B97989149B609E0B" ++
            "E3BAB63D47548381DBC5B1FC764E3F4B53DD9DA1158BFD3E2B9C8CF5" ++
            "6EDF019539349627DB2FD53D24B7C48665772E437D6C7F8CE442734A" ++
            "F7CCB7AE837C264AE3A9BEB87F8A2FE9B8B5292E5A021FFF5E91479E" ++
            "8CE7A28C2442C6F315180F93499A234DCF76E3FED135F9BB"),
   .rawInt 2⟩

/-- The 2048-bit catalog entry (`_knownGroups[2048]`). -/
def entry2048 : Entry :=
  ⟨.rawHex ("AC6BDB41324A9A9BF166DE5E1389582FAF72B6651987EE07FC319294" ++
            "3DB56050A37329CBB4A099ED8193E0757767A13DD52312AB4B03310D" ++
            "CD7F48A9DA04FD50E8083969EDB767B0CF6095179A163AB3661A05FB" ++
            "D5FAAAE82918A9962F0B93B855F97993EC975EEAA80D740ADBF4FF74" ++
            "7359D041D5C33EA71D281E446B14773BCA97B43A23FB801676BD207A" ++
            "436C6481F1D2B9078717461A5B9D32E688F87748544523B524B0D57D" ++
            "5EA77A2775D2ECFA032CFBDBF52FB3786160279004E57AE6AF874E73" ++
            "03CE53299CCC041C7BC308D82A5698F3A8D0C38271AE35F8E9DBFBB6" ++
            "94B5C803D89F7AE435DE236D525F54759B65E372FCD68EF20FA7111F" ++
            "9E4AFF73"),
   .rawInt 2⟩

/-- The 3072-bit catalog entry (`_knownGroups[3072]`). -/
def entry3072 : Entry :=
  ⟨.rawHex ("FFFFFFFFFFFFFFFFC90FDAA22168C234C4C6628B80DC1CD129024E08" ++
            "8A67CC74020BBEA63B139B22514A08798E3404DDEF9519B3CD3A431B" ++
            "302B0A6DF25F14374FE1356D6D51C245E485B576625E7EC6F44C42E9" ++
            "A637ED6B0BFF5CB6F406B7EDEE386BFB5A899FA5AE9F24117C4B1FE6" ++
            "49286651ECE45B3DC2007CB8A163BF0598DA48361C55D39A69163FA8" ++
            "FD24CF5F83655D23DCA3AD961C62F356208552BB9ED529077096966D" ++
            "670C354E4ABC9804F1746C08CA18217C32905E462E36CE3BE39E772C" ++
            "180E86039B2783A2EC07A28FB5C55DF06F4C52C9DE2BCBF695581718" ++
            "3995497CEA956AE515D2261898FA051015728E5A8AAAC42DAD33170D" ++
            "04507A33A85521ABDF1CBA64ECFB850458DBEF0A8AEA71575D060C7D" ++
            "B3970F85A6E1E4C7ABF5AE8CDB0933D71E8C94E04A25619DCEE3D226" ++
            "1AD2EE6BF12FFA06D98A0864D87602733EC86A64521F2B18177B200C" ++
            "BBE117577A615D6C770988C0BAD946E208E24FA074E5AB3143DB5BFC" ++
            "E0FD108E4B82D120A93AD2CAFFFFFFFFFFFFFFFF"),
   .rawInt 5⟩

/-- The 4096-bit catalog entry (`_knownGroups[4096]`). -/
def entry4096 : Entry :=
  ⟨.rawHex ("FFFFFFFFFFFFFFFFC90FDAA22168C234C4C6628B80DC1CD129024E08" ++
            "8A67CC74020BBEA63B139B22514A08798E3404DDEF9519B3CD3A431B" ++
            "302B0A6DF25F14374FE1356D6D51C245E485B576625E7EC6F44C42E9" ++
            "A637ED6B0BFF5CB6F406B7EDEE386BFB5A899FA5AE9F24117C4B1FE6" ++
            "49286651ECE45B3DC2007CB8A163BF0598DA48361C55D39A69163FA8" ++
            "FD24CF5F83655D23DCA3AD961C62F356208552BB9ED529077096966D" ++
            "670C354E4ABC9804F1746C08CA18217C32905E462E36CE3BE39E772C" ++
            "180E86039B2783A2EC07A28FB5C55DF06F4C52C9DE2BCBF695581718" ++
            "3995497CEA956AE515D2261898FA051015728E5A8AAAC42DAD33170D" ++
            "04507A33A85521ABDF1CBA64ECFB850458DBEF0A8AEA71575D060C7D" ++
            "B3970F85A6E1E4C7ABF5AE8CDB0933D71E8C94E04A25619DCEE3D226" ++
            "1AD2EE6BF12FFA06D98A0864D87602733EC86A64521F2B18177B200C" ++
            "BBE117577A615D6C770988C0BAD946E208E24FA074E5AB3143DB5BFC" ++
            "E0FD108E4B82D120A92108011A723C12A787E6D788719A10BDBA5B26" ++
            "99C327186AF4E23C1A946834B6150BDA2583E9CA2AD44CE8DBBBC2DB" ++
            "04DE8EF92E8EFC141FBECAA6287C59474E6BC05D99B2964FA090C3A2" ++
            "233BA186515BE7ED1F612970CEE2D7AFB81BDD762170481CD0069127" ++
            "D5B05AA993B4EA988D8FDDC186FFB7DC90A6C08F4DF435C934063199" ++
            "FFFFFFFFFFFFFFFF"),
   .rawInt 5⟩

/-- The 6144-bit catalog entry (`_knownGroups[6144]`). -/
def entry6144 : Entry :=
  ⟨.rawHex ("FFFFFFFFFFFFFFFFC90FDAA22168C234C4C6628B80DC1CD129024E08" ++
            "8A67CC74020BBEA63B139B22514A08798E3404DDEF9519B3CD3A431B" ++
            "302B0A6DF25F14374FE1356D6D51C245E485B576625E7EC6F44C42E9" ++
            "A637ED6B0BFF5CB6F406B7EDEE386BFB5A899FA5AE9F24117C4B1FE6" ++
            "49286651ECE45B3DC2007CB8A163BF0598DA48361C55D39A69163FA8" ++
            "FD24CF5F83655D23DCA3AD961C62F356208552BB9ED529077096966D" ++
            "670C354E4ABC9804F1746C08CA18217C32905E462E36CE3BE39E772C" ++
            "180E86039B2783A2EC07A28FB5C55DF06F4C52C9DE2BCBF695581718" ++
            "3995497CEA956AE515D2261898FA051015728E5A8AAAC42DAD33170D" ++
            "04507A33A85521ABDF1CBA64ECFB850458DBEF0A8AEA71575D060C7D" ++
            "B3970F85A6E1E4C7ABF5AE8CDB0933D71E8C94E04A25619DCEE3D226" ++
            "1AD2EE6BF12FFA06D98A0864D87602733EC86A64521F2B18177B200C" ++
            "BBE117577A615D6C770988C0BAD946E208E24FA074E5AB3143DB5BFC" ++
            "E0FD108E4B82D120A92108011A723C12A787E6D788719A10BDBA5B26" ++
            "99C327186AF4E23C1A946834B6150BDA2583E9CA2AD44CE8DBBBC2DB" ++
            "04DE8EF92E8EFC141FBECAA6287C59474E6BC05D99B2964FA090C3A2" ++
            "233BA186515BE7ED1F612970CEE2D7AFB81BDD762170481CD0069127" ++
            "D5B05AA993B4EA988D8FDDC186FFB7DC90A6C08F4DF435C934028492" ++
            "36C3FAB4D27C7026C1D4DCB2602646DEC9751E763DBA37BDF8FF9406" ++
            "AD9E530EE5DB382F413001AEB06A53ED9027D831179727B0865A8918" ++
            "DA3EDBEBCF9B14ED44CE6CBACED4BB1BDB7F1447E6CC254B33205151" ++
            "2BD7AF426FB8F401378CD2BF5983CA01C64B92ECF032EA15D1721D03" ++
            "F482D7CE6E74FEF6D55E702F46980C82B5A84031900B1C9E59E7C97F" ++
            "BEC7E8F323A97A7E36CC88BE0F1D45B7FF585AC54BD407B22B4154AA" ++
            "CC8F6D7EBF48E1D814CC5ED20F8037E0A79715EEF29BE32806A1D58B" ++
            "B7C5DA76F550AA3D8A1FBFF0EB19CCB1A313D55CDA56C9EC2EF29632" ++
            "387FE8D76E3C0468043E8F663F4860EE12BF2D5B0B7474D6E694F91E" ++
            "6DCC4024FFFFFFFFFFFFFFFF"),
   .rawInt 5⟩

/-- The 8192-bit catalog entry (`_knownGroups[8192]`). -/
def entry8192 : Entry :=
  ⟨.rawHex ("FFFFFFFFFFFFFFFFC90FDAA22168C234C4C6628B80DC1CD129024E08" ++
            "8A67CC74020BBEA63B139B22514A08798E3404DDEF9519B3CD3A431B" ++
            "302B0A6DF25F14374FE1356D6D51C245E485B576625E7EC6F44C42E9" ++
            "A637ED6B0BFF5CB6F406B7EDEE386BFB5A899FA5AE9F24117C4B1FE6" ++
            "49286651ECE45B3DC2007CB8A163BF0598DA48361C55D39A69163FA8" ++
            "FD24CF5F83655D23DCA3AD961C62F356208552BB9ED529077096966D" ++
            "670C354E4ABC9804F1746C08CA18217C32905E462E36CE3BE39E772C" ++
            "180E86039B2783A2EC07A28FB5C55DF06F4C52C9DE2BCBF695581718" ++
            "3995497CEA956AE515D2261898FA051015728E5A8AAAC42DAD33170D" ++
            "04507A33A85521ABDF1CBA64ECFB850458DBEF0A8AEA71575D060C7D" ++
            "B3970F85A6E1E4C7ABF5AE8CDB0933D71E8C94E04A25619DCEE3D226" ++
            "1AD2EE6BF12FFA06D98A0864D87602733EC86A64521F2B18177B200C" ++
            "BBE117577A615D6C770988C0BAD946E208E24FA074E5AB3143DB5BFC" ++
            "E0FD108E4B82D120A92108011A723C12A787E6D788719A10BDBA5B26" ++
            "99C327186AF4E23C1A946834B6150BDA2583E9CA2AD44CE8DBBBC2DB" ++
            "04DE8EF92E8EFC141FBECAA6287C59474E6BC05D99B2964FA090C3A2" ++
            "233BA186515BE7ED1F612970CEE2D7AFB81BDD762170481CD0069127" ++
            "D5B05AA993B4EA988D8FDDC186FFB7DC90A6C08F4DF435C934028492" ++
            "36C3FAB4D27C7026C1D4DCB2602646DEC9751E763DBA37BDF8FF9406" ++
            "AD9E530EE5DB382F413001AEB06A53ED9027D831179727B0865A8918" ++
            "DA3EDBEBCF9B14ED44CE6CBACED4BB1BDB7F1447E6CC254B33205151" ++
            "2BD7AF426FB8F401378CD2BF5983CA01C64B92ECF032EA15D1721D03" ++
            "F482D7CE6E74FEF6D55E702F46980C82B5A84031900B1C9E59E7C97F" ++
            "BEC7E8F323A97A7E36CC88BE0F1D45B7FF585AC54BD407B22B4154AA" ++
            "CC8F6D7EBF48E1D814CC5ED20F8037E0A79715EEF29BE32806A1D58B" ++
            "B7C5DA76F550AA3D8A1FBFF0EB19CCB1A313D55CDA56C9EC2EF29632" ++
            "387FE8D76E3C0468043E8F663F4860EE12BF2D5B0B7474D6E694F91E" ++
            "6DBE115974A3926F12FEE5E438777CB6A932DF8CD8BEC4D073B931BA" ++
            "3BC832B68D9DD300741FA7BF8AFC47ED2576F6936BA424663AAB639C" ++
            "5AE4F5683423B4742BF1C978238F16CBE39D652DE3FDB8BEFC848AD9" ++
            "22222E04A4037C0713EB57A81A23F0C73473FC646CEA306B4BCBC886" ++
            "2F8385DDFA9D4B7FA2C087E879683303ED5BDD3A062B3CF5B3A278A6" ++
            "6D2A13F83F44F82DDF310EE074AB6A364597E899A0255DC164F31CC5" ++
            "0846851DF9AB48195DED7EA1B1D510BD7EE74D73FAF36BC31ECFA268" ++
            "359046F4EB879F924009438B481C6CD7889A002ED5EE382BC9190DA6" ++
            "FC026E479558E4475677E9AA9E3050E2765694DFC81F56E880B96E71" ++
            "60C980DD98EDD3DFFFFFFFFFFFFFFFFF"),
   .rawInt 19⟩

/-- The `_knownGroups` table in its literal (pre-initialization) form. -/
def knownGroupsTable : List (String × Entry) :=
  [("1024", entry1024), ("1536", entry1536), ("2048", entry2048),
   ("3072", entry3072), ("4096", entry4096), ("6144", entry6144),
   ("8192", entry8192)]

/-- The registry state at module load: flag down, table in literal form. -/
def initialState : RegState := ⟨false, knownGroupsTable⟩

/-- One step of `_initKnownGroups`'s loop body: the entry keyed by `k`
has its `N` and `g` replaced by `new sjcl.bn(...)` of themselves. -/
def materializeKey (tbl : List (String × Entry)) (k : String) :
    List (String × Entry) :=
  tbl.map fun p => if p.1 = k then (p.1, ⟨bnOfGVal p.2.N, bnOfGVal p.2.g⟩) else p

/-- `_initKnownGroups()`: for each size in `_knownGroupSizes` (converted
to its decimal string), materialize that entry's `N` and `g`; then raise
`_didInitKnownGroups`. -/
def _initKnownGroups (st : RegState) : RegState :=
  ⟨true, _knownGroupSizes.foldl (fun tbl size => materializeKey tbl (Nat.repr size))
      st.groups⟩

/-- `knownGroup(i)` after the string coercion: if the flag is down, run
`_initKnownGroups`; then read `_knownGroups[i]` (`none` models the
`undefined` that JavaScript yields for an absent property).  Both the
result and the registry state after the call are returned. -/
def knownGroupStr (i : String) (st : RegState) : Option Entry × RegState :=
  let st := if st.flagDidInit then st else _initKnownGroups st
  ((st.groups.find? fun p => p.1 == i).map Prod.snd, st)

/-- `knownGroup(i)` on a number argument: `i` is coerced with
`i.toString()` and looked up, starting from the module-load state. -/
def knownGroup (i : Nat) : Option Entry :=
  (knownGroupStr (Nat.repr i) initialState).1

/-- Is a catalog field in materialized (BigInteger) form? -/
def GVal.isBig : GVal → Bool
  | .big _ => true
  | _ => false

/-- Are all of a state's catalog entries materialized? -/
def allMaterialized (st : RegState) : Bool :=
  st.groups.all fun p => p.2.N.isBig && p.2.g.isBig

/-- The RFC 5054 2048-bit modulus, as a numeral (the value the hex string
of `entry2048` denotes). -/
def N2048val : Nat :=
  0xAC6BDB41324A9A9BF166DE5E1389582FAF72B6651987EE07FC3192943DB56050A37329CBB4A099ED8193E0757767A13DD52312AB4B03310DCD7F48A9DA04FD50E8083969EDB767B0CF6095179A163AB3661A05FBD5FAAAE82918A9962F0B93B855F97993EC975EEAA80D740ADBF4FF747359D041D5C33EA71D281E446B14773BCA97B43A23FB801676BD207A436C6481F1D2B9078717461A5B9D32E688F87748544523B524B0D57D5EA77A2775D2ECFA032CFBDBF52FB3786160279004E57AE6AF874E7303CE53299CCC041C7BC308D82A5698F3A8D0C38271AE35F8E9DBFBB694B5C803D89F7AE435DE236D525F54759B65E372FCD68EF20FA7111F9E4AFF73

/-- A concrete fixed-width digest function for instantiating the hash
collaborator in witnesses: a two-bit digest of any bit string. -/
def sampleHash : HashFn where
  hash b := [b.length % 2 == 1, b.foldl xor false]
  enc s := s.data.map fun c => c.toNat % 2 == 1

/-- A small concrete group for witnesses. -/
def sampleGroup : Group := ⟨7, 3⟩

/-- The decimal value of a digit character. -/
def chDigit (c : Char) : Nat := c.toNat - 48

/-- The number denoted by a big-endian list of decimal digit
characters. -/
def decVal (cs : List Char) : Nat :=
  cs.foldl (fun a c => 10 * a + chDigit c) 0

theorem toDigitsCore_append (fuel : Nat) :
    ∀ (n : Nat) (ds : List Char),
      Nat.toDigitsCore 10 fuel n ds = Nat.toDigitsCore 10 fuel n [] ++ ds := by
  induction fuel with
  | zero => intro n ds; simp [Nat.toDigitsCore]
  | succ fuel ih =>
    intro n ds
    simp only [Nat.toDigitsCore]
    split
    · simp
    · rw [ih (n / 10) (Nat.digitChar (n % 10) :: ds),
        ih (n / 10) [Nat.digitChar (n % 10)]]
      simp

theorem toDigitsCore_fuel (f1 : Nat) :
    ∀ (f2 n : Nat) (ds : List Char), n < f1 → n < f2 →
      Nat.toDigitsCore 10 f1 n ds = Nat.toDigitsCore 10 f2 n ds := by
  induction f1 with
  | zero => intro f2 n ds h1 _; omega
  | succ f1 ih =>
    intro f2 n ds h1 h2
    cases f2 with
    | zero => omega
    | succ f2 =>
      simp only [Nat.toDigitsCore]
      split
      · rfl
      · rename_i hne
        have hn : 0 < n := by
          rcases Nat.eq_zero_or_pos n with h | h
          · subst h; simp at hne
          · exact h
        have hdiv : n / 10 < n := Nat.div_lt_self hn (by omega)
        exact ih f2 (n / 10) _ (by omega) (by omega)

theorem toDigits_step (n : Nat) (h : 0 < n) :
    Nat.toDigits 10 n =
      (if n < 10 then [] else Nat.toDigits 10 (n / 10)) ++
        [Nat.digitChar (n % 10)] := by
  unfold Nat.toDigits
  simp only [Nat.toDigitsCore]
  by_cases h10 : n / 10 = 0
  · rw [if_pos h10, if_pos (by omega)]
    simp
  · rw [if_neg h10, if_neg (by omega)]
    rw [toDigitsCore_append]
    congr 1
    have hdiv : n / 10 < n := Nat.div_lt_self h (by omega)
    exact toDigitsCore_fuel n (n / 10 + 1) (n / 10) [] (by omega) (by omega)

theorem chDigit_digitChar (d : Nat) (h : d < 10) :
    chDigit (Nat.digitChar d) = d := by
  interval_cases d <;> decide

theorem decVal_toDigits (n : Nat) : decVal (Nat.toDigits 10 n) = n := by
  induction n using Nat.strong_induction_on with
  | _ n ih =>
    rcases Nat.eq_zero_or_pos n with h0 | h0
    · subst h0; decide
    · rw [toDigits_step n h0]
      unfold decVal
      rw [List.foldl_append]
      by_cases h10 : n < 10
      · rw [if_pos h10]
        simp only [List.foldl]
        rw [chDigit_digitChar (n % 10) (Nat.mod_lt n (by omega))]
        omega
      · rw [if_neg h10]
        have hdiv : n / 10 < n := Nat.div_lt_self h0 (by omega)
        have hrec := ih (n / 10) hdiv
        unfold decVal at hrec
        simp only [List.foldl]
        rw [hrec, chDigit_digitChar (n % 10) (Nat.mod_lt n (by omega))]
        omega

theorem repr_inj {m n : Nat} (h : Nat.repr m = Nat.repr n) : m = n := by
  have hd : Nat.toDigits 10 m = Nat.toDigits 10 n := by
    have hdata := congrArg String.data h
    simpa [Nat.repr, List.asString] using hdata
  have hval := congrArg decVal hd
  rwa [decVal_toDigits, decVal_toDigits] at hval

theorem materializeKey_keys (tbl : List (String × Entry)) (k : String) :
    (materializeKey tbl k).map Prod.fst = tbl.map Prod.fst := by
  unfold materializeKey
  rw [List.map_map]
  apply List.map_congr_left
  intro p _
  by_cases h : p.1 = k <;> simp [h]

theorem initKnownGroups_keys (st : RegState) :
    (_initKnownGroups st).groups.map Prod.fst = st.groups.map Prod.fst := by
  unfold _initKnownGroups _knownGroupSizes
  simp only [List.foldl_cons, List.foldl_nil, materializeKey_keys]

theorem knownGroupStr_some_key (s : String) (e : Entry)
    (h : (knownGroupStr s initialState).1 = some e) :
    s ∈ ["1024", "1536", "2048", "3072", "4096", "6144", "8192"] := by
  have h' : ((_initKnownGroups initialState).groups.find? fun p => p.1 == s).map
      Prod.snd = some e := h
  obtain ⟨p, hfind, -⟩ := Option.map_eq_some'.mp h'
  have hmem := List.mem_of_find?_eq_some hfind
  have hpred := List.find?_some hfind
  have hkey : p.1 = s := by simpa using hpred
  have hmap : p.1 ∈ ((_initKnownGroups initialState).groups.map Prod.fst) :=
    List.mem_map_of_mem Prod.fst hmem
  rw [initKnownGroups_keys] at hmap
  rw [hkey] at hmap
  simpa [initialState, knownGroupsTable] using hmap

/-- C3: for every requested bit size outside the seven cataloged sizes,
the registry lookup fails: `knownGroup` yields no group (the `undefined`
read that the spec's `UnknownGroup` failure describes). -/
theorem knownGroup_unknown_fails (n : Nat) (h : n ∉ _knownGroupSizes) :
    knownGroup n = none := by
  cases hk : knownGroup n with
  | none => rfl
  | some e =>
    exfalso
    have hmem := knownGroupStr_some_key (Nat.repr n) e hk
    simp only [List.mem_cons, List.not_mem_nil, or_false] at hmem
    apply h
    have hn : n = 1024 ∨ n = 1536 ∨ n = 2048 ∨ n = 3072 ∨ n = 4096 ∨
        n = 6144 ∨ n = 8192 := by
      rcases hmem with h1 | h1 | h1 | h1 | h1 | h1 | h1
      · exact Or.inl (repr_inj (h1.trans (show ("1024" : String) = Nat.repr 1024 by decide)))
      · exact Or.inr (Or.inl (repr_inj
          (h1.trans (show ("1536" : String) = Nat.repr 1536 by decide))))
      · exact Or.inr (Or.inr (Or.inl (repr_inj
          (h1.trans (show ("2048" : String) = Nat.repr 2048 by decide)))))
      · exact Or.inr (Or.inr (Or.inr (Or.inl (repr_inj
          (h1.trans (show ("3072" : String) = Nat.repr 3072 by decide))))))
      · exact Or.inr (Or.inr (Or.inr (Or.inr (Or.inl (repr_inj
          (h1.trans (show ("4096" : String) = Nat.repr 4096 by decide)))))))
      · exact Or.inr (Or.inr (Or.inr (Or.inr (Or.inr (Or.inl (repr_inj
          (h1.trans (show ("6144" : String) = Nat.repr 6144 by decide))))))))
      · exact Or.inr (Or.inr (Or.inr (Or.inr (Or.inr (Or.inr (repr_inj
          (h1.trans (show ("8192" : String) = Nat.repr 8192 by decide))))))))
    unfold _knownGroupSizes
    simpa using hn

/-- Witness for C3 at the concrete input of the claim: 9999 is not a
cataloged size and `knownGroup 9999` yields no group. -/
theorem knownGroup_unknown_fails_witness :
    9999 ∉ _knownGroupSizes ∧ knownGroup 9999 = none :=
  ⟨by decide, knownGroup_unknown_fails 9999 (by decide)⟩

/-- C6: the `_didInitKnownGroups` flag starts down and transitions to up
exactly once, on the first lookup, which materializes every cataloged
entry into BigInteger form; any lookup on an initialized state returns
that state unchanged, and after any lookup the flag is up. -/
theorem registry_init_once :
    initialState.flagDidInit = false ∧
    (∀ i, (knownGroupStr i initialState).2 = _initKnownGroups initialState) ∧
    (_initKnownGroups initialState).flagDidInit = true ∧
    allMaterialized (_initKnownGroups initialState) = true ∧
    (∀ i st, st.flagDidInit = true → (knownGroupStr i st).2 = st) ∧
    (∀ i st, ((knownGroupStr i st).2).flagDidInit = true) := by
  refine ⟨rfl, fun i => rfl, rfl, by decide, ?_, ?_⟩
  · intro i st hst
    simp [knownGroupStr, hst]
  · intro i st
    by_cases hst : st.flagDidInit
    · simp [knownGroupStr, hst]
    · simp [knownGroupStr, hst, _initKnownGroups]

/-- Witness for C6: the initialized-state clauses applied at the
concrete already-initialized state and the key of the claim. -/
theorem registry_init_once_witness :
    (knownGroupStr "1024" (RegState.mk true knownGroupsTable)).2 =
      RegState.mk true knownGroupsTable ∧
    ((knownGroupStr "9999" (RegState.mk true knownGroupsTable)).2).flagDidInit = true :=
  ⟨registry_init_once.2.2.2.2.1 "1024" (RegState.mk true knownGroupsTable) rfl,
   registry_init_once.2.2.2.2.2 "9999" (RegState.mk true knownGroupsTable)⟩

set_option maxRecDepth 20000 in
set_option exponentiation.threshold 5000 in
/-- C7: `knownGroup 2048` returns the cataloged group whose modulus is
the RFC 5054 2048-bit prime — a value of exactly 2048 bits — and whose
generator is 2. -/
theorem knownGroup_2048_spec :
    knownGroup 2048 = some ⟨.big N2048val, .big 2⟩ ∧
    2 ^ 2047 ≤ N2048val ∧ N2048val < 2 ^ 2048 :=
  ⟨by decide, by decide, by decide⟩

/-- C9: on every cataloged size, calling `knownGroup` with the number and
calling the string-keyed lookup with its decimal string form give the
same result, and that result is an actual group (the number is coerced
to a string before the catalog lookup). -/
theorem knownGroup_stringifies (n : Nat) (h : n ∈ _knownGroupSizes) :
    knownGroup n = (knownGroupStr (Nat.repr n) initialState).1 ∧
    (knownGroup n).isSome = true := by
  refine ⟨rfl, ?_⟩
  fin_cases h <;> decide

/-- Witness for C9 at the 2048-bit size. -/
theorem knownGroup_stringifies_witness :
    knownGroup 2048 = (knownGroupStr (Nat.repr 2048) initialState).1 ∧
    (knownGroup 2048).isSome = true :=
  knownGroup_stringifies 2048 (by decide)

/-- C2: `makeVerifier` returns the bit string of `g^x mod N`, where `x`
is the BigInteger read from the digest `Hash(s | Hash(I | ":" | P))`,
with `I` and `P` hashed in their character encoding and the salt `s`
concatenated as raw bits. -/
theorem makeVerifier_formula (E : HashFn) (I P : String) (s : Bits)
    (group : Group) :
    makeVerifier E I P s group =
      toBits (group.g ^ fromBits (E.hash (s ++ E.hash (E.enc (I ++ ":" ++ P)))) %
        group.N) := rfl

/-- C8: `makeVerifier` is deterministic — two calls on identical inputs
yield identical outputs. -/
theorem makeVerifier_deterministic (E E' : HashFn) (I I' P P' : String)
    (s s' : Bits) (group group' : Group) (hE : E = E') (hI : I = I')
    (hP : P = P') (hs : s = s') (hg : group = group') :
    makeVerifier E I P s group = makeVerifier E' I' P' s' group' := by
  subst hE hI hP hs hg
  rfl

/-- Witness for C8: two syntactically separate calls on the same
concrete inputs agree. -/
theorem makeVerifier_deterministic_witness :
    sampleHash = sampleHash ∧
    makeVerifier sampleHash "alice" "password123" [true, false] sampleGroup =
      makeVerifier sampleHash "alice" "password123" [true, false] sampleGroup :=
  ⟨rfl, makeVerifier_deterministic sampleHash sampleHash "alice" "alice"
    "password123" "password123" [true, false] [true, false] sampleGroup
    sampleGroup rfl rfl rfl rfl rfl⟩

/-- C4: for a value no longer than the modulus bit string, `_pad` yields
a string of exactly the modulus's bit length whose low-order bits are the
value unchanged and whose prepended bits are all zero; when the lengths
already agree nothing is prepended. -/
theorem pad_spec (p N : Bits) (h : p.length ≤ N.length) :
    (_pad p N).length = N.length ∧
    (_pad p N).drop (N.length - p.length) = p ∧
    (_pad p N).take (N.length - p.length) =
      List.replicate (N.length - p.length) false ∧
    (p.length = N.length → _pad p N = p) := by
  have hle : N.length - p.length ≤ 32 * ((N.length + 31) / 32) := by omega
  have hpad : _pad p N = List.replicate (N.length - p.length) false ++ p := by
    simp only [_pad, bitSlice, List.drop_zero, List.take_replicate,
      Nat.min_eq_left hle]
  refine ⟨?_, ?_, ?_, ?_⟩
  · rw [hpad]; simp; omega
  · rw [hpad, List.drop_left' (by simp)]
  · rw [hpad, List.take_left' (by simp)]
  · intro hEq
    rw [hpad, hEq]
    simp

/-- Witness for C4 on a one-bit value and a three-bit modulus string. -/
theorem pad_spec_witness :
    ([true] : Bits).length ≤ ([false, false, false] : Bits).length ∧
    ((_pad [true] [false, false, false]).length =
        ([false, false, false] : Bits).length ∧
      (_pad [true] [false, false, false]).drop
          (([false, false, false] : Bits).length - ([true] : Bits).length) = [true] ∧
      (_pad [true] [false, false, false]).take
          (([false, false, false] : Bits).length - ([true] : Bits).length) =
        List.replicate
          (([false, false, false] : Bits).length - ([true] : Bits).length) false ∧
      (([true] : Bits).length = ([false, false, false] : Bits).length →
        _pad [true] [false, false, false] = [true])) :=
  ⟨by decide, pad_spec [true] [false, false, false] (by decide)⟩

/-- C5: `makeM1` hashes the six fields in order — the pointwise XOR of
the digests of `N`'s bits and `g`'s (unpadded) bits, then the digest of
`I`, then `s`, `A`, `B`, `K` — given that the two digests have equal
length (as digests of one fixed-width hash do). -/
theorem makeM1_formula (E : HashFn) (I : String) (s A B K : Bits)
    (group : Group)
    (hlen : (E.hash (toBits group.N)).length =
      (E.hash (toBits group.g)).length) :
    makeM1 E I s A B K group =
      E.hash (List.zipWith xor (E.hash (toBits group.N))
          (E.hash (toBits group.g)) ++
        E.hash (E.enc I) ++ s ++ A ++ B ++ K) := rfl

/-- Witness for C5 with the sample fixed-width hash on the sample
group. -/
theorem makeM1_formula_witness :
    (sampleHash.hash (toBits sampleGroup.N)).length =
      (sampleHash.hash (toBits sampleGroup.g)).length ∧
    makeM1 sampleHash "alice" [true] [false] [true, true] [false, true]
        sampleGroup =
      sampleHash.hash (List.zipWith xor
          (sampleHash.hash (toBits sampleGroup.N))
          (sampleHash.hash (toBits sampleGroup.g)) ++
        sampleHash.hash (sampleHash.enc "alice") ++ [true] ++ [false] ++
        [true, true] ++ [false, true]) :=
  ⟨by decide, makeM1_formula sampleHash "alice" [true] [false] [true, true]
    [false, true] sampleGroup (by decide)⟩

/-- C1: `makeClientKey` returns `base ^ exponent mod N` as a bit string,
where `base = (B - k * (g^x mod N)) mod N` is normalized into `[0, N)`,
`exponent = a + u * x` is formed with unbounded integer addition and
multiplication, and `x`, `k`, `u` are the hash-derived values of the
specified formulas. -/
theorem makeClientKey_spec (E : HashFn) (I P : String) (s a A B : Bits)
    (group : Group) (hN : 0 < group.N) :
    let Nb := toBits group.N
    let x := fromBits (E.hash (s ++ E.hash (E.enc (I ++ ":" ++ P))))
    let k := fromBits (E.hash (Nb ++ _pad (toBits group.g) Nb))
    let u := fromBits (E.hash (_pad A Nb ++ _pad B Nb))
    let base : Int :=
      ((fromBits B : Int) - (k : Int) * ((group.g ^ x % group.N : Nat) : Int)) %
        (group.N : Int)
    0 ≤ base ∧ base < (group.N : Int) ∧
      makeClientKey E I P s a A B group =
        toBits (base.toNat ^ (fromBits a + u * x) % group.N) := by
  intro Nb x k u base
  have hNZ : (group.N : Int) ≠ 0 := by exact_mod_cast hN.ne'
  refine ⟨Int.emod_nonneg _ hNZ, Int.emod_lt_of_pos _ (by exact_mod_cast hN), ?_⟩
  have hcast : (((powermod group.g x group.N * k % group.N : Nat)) : Int) %
      (group.N : Int) =
      ((k : Int) * ((group.g ^ x % group.N : Nat) : Int)) % (group.N : Int) := by
    unfold powermod
    rw [Int.ofNat_emod, Int.emod_emod_of_dvd _ dvd_rfl, Nat.cast_mul,
      mul_comm ((group.g ^ x % group.N : Nat) : Int) (k : Int)]
  have hkey : subMod (fromBits B)
      (mulmod (powermod group.g x group.N) k group.N) group.N = base.toNat := by
    unfold subMod mulmod
    congr 1
    show ((fromBits B : Int) -
        ((powermod group.g x group.N * k % group.N : Nat) : Int)) %
        (group.N : Int) =
      ((fromBits B : Int) - (k : Int) * ((group.g ^ x % group.N : Nat) : Int)) %
        (group.N : Int)
    conv_lhs => rw [Int.sub_emod]
    conv_rhs => rw [Int.sub_emod]
    rw [hcast]
  show toBits (powermod (subMod (fromBits B)
      (mulmod (powermod group.g x group.N) k group.N) group.N)
      (fromBits a + u * x) group.N) = _
  rw [hkey]
  rfl

/-- Witness for C1 on a small concrete group and inputs. -/
theorem makeClientKey_spec_witness :
    0 < sampleGroup.N ∧
    (let Nb := toBits sampleGroup.N
     let x := fromBits (sampleHash.hash ([true] ++
       sampleHash.hash (sampleHash.enc ("alice" ++ ":" ++ "pw"))))
     let k := fromBits (sampleHash.hash (Nb ++ _pad (toBits sampleGroup.g) Nb))
     let u := fromBits (sampleHash.hash (_pad [true] Nb ++ _pad [true, true] Nb))
     let base : Int :=
       ((fromBits [true, true] : Int) -
         (k : Int) * ((sampleGroup.g ^ x % sampleGroup.N : Nat) : Int)) %
         (sampleGroup.N : Int)
     0 ≤ base ∧ base < (sampleGroup.N : Int) ∧
       makeClientKey sampleHash "alice" "pw" [true] [true, false] [true]
           [true, true] sampleGroup =
         toBits (base.toNat ^ (fromBits [true, false] + u * x) %
           sampleGroup.N)) :=
  ⟨by decide, makeClientKey_spec sampleHash "alice" "pw" [true] [true, false]
    [true] [true, true] sampleGroup (by decide)⟩

/-- C10: every SRPMath operation returns the group record it was given
unchanged — the state-threaded translations hand the group back exactly
as received, and each one computes the same result as its functional
reading (`makeM2` receives no group at all). -/
theorem srp_group_frame (E : HashFn) (I P : String) (s a A B K M1v : Bits)
    (group : Group) :
    (makeVerifierSt E I P s group).2 = group ∧
    (makeASt a group).2 = group ∧
    (makeClientKeySt E I P s a A B group).2 = group ∧
    (makeM1St E I s A B K group).2 = group ∧
    (makeVerifierSt E I P s group).1 = makeVerifier E I P s group ∧
    (makeASt a group).1 = makeA a group ∧
    (makeClientKeySt E I P s a A B group).1 = makeClientKey E I P s a A B group ∧
    (makeM1St E I s A B K group).1 = makeM1 E I s A B K group ∧
    makeM2 E A M1v K = E.hash (A ++ M1v ++ K) :=
  ⟨rfl, rfl, rfl, rfl, rfl, rfl, rfl, rfl, rfl⟩

end SRP
